import Mathlib

/-!
Verification of the movie catalog-and-review application (`app.py`).

The relational store (SQLite tables `users`, `movies`, `categories`,
`movie_categories`, `ratings`) is embedded as lists of records inside a `DB`
structure; surrogate `AUTOINCREMENT` keys are modelled with explicit
next-id counters.  The Flask session is a record of optional fields, and
each route handler becomes a pure function from the current database and
session to the updated database plus an outcome mirroring the handler's
response (redirects / rendered error pages).  SQL `AVG` over an empty set
yields `NULL`, modelled as `none`; otherwise the rational arithmetic mean.
-/

/-- A row of the `users` table.  `password` holds the stored bcrypt hash,
treated as an opaque string produced by an abstract hash function. -/
structure User where
  id : Nat
  username : String
  password : String
  email : String
  role : String
deriving Repr, DecidableEq

/-- A row of the `movies` table.  `year` is stored as submitted from the
form (a string); `rating` is the derived aggregate (`NULL` = `none`,
schema default `0.0` for freshly inserted movies). -/
structure Movie where
  id : Nat
  title : String
  director : String
  year : String
  genre : String
  description : String
  image_url : Option String
  video_url : Option String
  video_type : String
  rating : Option ℚ
deriving Repr, DecidableEq

/-- A row of the `ratings` table: one integer score in `[1,5]` plus an
optional free-text review per `(user, movie)` pair. -/
structure Rating where
  id : Nat
  user_id : Nat
  movie_id : Nat
  rating : Int
  review : String
deriving Repr, DecidableEq

/-- A row of the `movie_categories` association table. -/
structure MovieCategory where
  movie_id : Nat
  category_id : Nat
deriving Repr, DecidableEq

/-- The relational store.  The `categories` table is static reference data
that no verified operation consults, so it is omitted. -/
structure DB where
  users : List User
  movies : List Movie
  ratings : List Rating
  movieCategories : List MovieCategory
  nextUserId : Nat
  nextMovieId : Nat
  nextRatingId : Nat
deriving Repr, DecidableEq

/-- The Flask session: `user_id`, `username` and `role` keys, each possibly
absent. -/
structure Session where
  user_id : Option Nat
  username : Option String
  role : Option String
deriving Repr, DecidableEq

/-- `check_login`: a user is logged in iff the session has a `user_id`. -/
def check_login (sess : Session) : Bool :=
  sess.user_id.isSome

/-- `check_admin`: logged in and the session role equals `"admin"`. -/
def check_admin (sess : Session) : Bool :=
  check_login sess && sess.role == some "admin"

/-- The scores of all ratings currently associated with movie `m`. -/
def ratingsFor (ratings : List Rating) (m : Nat) : List Int :=
  (ratings.filter (fun r => r.movie_id == m)).map Rating.rating

/-- SQL `AVG` over a column of integer scores: `NULL` (`none`) on the empty
set, otherwise the rational arithmetic mean. -/
def sqlAvg (xs : List Int) : Option ℚ :=
  if xs.isEmpty then none else some ((xs.sum : ℚ) / (xs.length : ℚ))

/-- The `WHERE user_id = ? AND movie_id = ?` predicate on rating rows. -/
def ratingKey (uid m : Nat) (r : Rating) : Bool :=
  r.user_id == uid && r.movie_id == m

/-- Whether a rating row for `(uid, m)` exists. -/
def hasRating (db : DB) (uid m : Nat) : Bool :=
  (db.ratings.find? (ratingKey uid m)).isSome

/-- `UPDATE movies SET rating = (SELECT AVG(rating) FROM ratings WHERE
movie_id = ?) WHERE id = ?`: recompute movie `m`'s stored aggregate from
the given rating rows. -/
def updateMovieAgg (movies : List Movie) (ratings : List Rating) (m : Nat) :
    List Movie :=
  movies.map (fun mv =>
    if mv.id == m then { mv with rating := sqlAvg (ratingsFor ratings m) } else mv)

/-- Responses of the `rate_movie` route: a redirect to the login page when
not logged in, otherwise a redirect back to the movie detail page (the
handler has no other response). -/
inductive RateOutcome
  | redirectLogin
  | redirectDetail
deriving Repr, DecidableEq

/-- The `/rate_movie/<movie_id>` handler: requires login; rejects scores
outside `[1,5]` without mutating state; updates the existing rating row for
`(user, movie)` if one exists, else inserts a new row; then recomputes the
movie's stored aggregate from the current rating rows; always redirects to
the movie detail page. -/
def rate_movie (db : DB) (sess : Session) (movieId : Nat) (score : Int)
    (review : String) : DB × RateOutcome :=
  match sess.user_id with
  | none => (db, .redirectLogin)
  | some uid =>
    if score < 1 ∨ 5 < score then (db, .redirectDetail)
    else
      match db.ratings.find? (ratingKey uid movieId) with
      | some _ =>
        let ratings' := db.ratings.map (fun r =>
          if ratingKey uid movieId r then
            { r with rating := score, review := review }
          else r)
        ({ db with
            ratings := ratings'
            movies := updateMovieAgg db.movies ratings' movieId },
         .redirectDetail)
      | none =>
        let ratings' :=
          db.ratings ++ [⟨db.nextRatingId, uid, movieId, score, review⟩]
        ({ db with
            ratings := ratings'
            nextRatingId := db.nextRatingId + 1
            movies := updateMovieAgg db.movies ratings' movieId },
         .redirectDetail)

/-- `rate_movie` with persistence-failure injection: `okSelect`, `okWrite`
and `okAgg` say whether the existing-rating lookup, the rating
INSERT/UPDATE, and the aggregate UPDATE succeed.  A failed
`execute_db_query` returns `None` to the handler: a failed lookup is
indistinguishable from "no existing row" (the handler then attempts an
INSERT, which the `UNIQUE(user_id, movie_id)` constraint rejects whenever a
row already exists); a failed write makes the handler skip the aggregate
update; a failed aggregate update is silently ignored.  Every such path
still redirects to the movie detail page — the handler signals no error to
the caller. -/
def rate_movieF (db : DB) (sess : Session) (movieId : Nat) (score : Int)
    (review : String) (okSelect okWrite okAgg : Bool) : DB × RateOutcome :=
  match sess.user_id with
  | none => (db, .redirectLogin)
  | some uid =>
    if score < 1 ∨ 5 < score then (db, .redirectDetail)
    else
      match (if okSelect then db.ratings.find? (ratingKey uid movieId)
             else none) with
      | some _ =>
        if okWrite then
          let ratings' := db.ratings.map (fun r =>
            if ratingKey uid movieId r then
              { r with rating := score, review := review }
            else r)
          if okAgg then
            ({ db with
                ratings := ratings'
                movies := updateMovieAgg db.movies ratings' movieId },
             .redirectDetail)
          else ({ db with ratings := ratings' }, .redirectDetail)
        else (db, .redirectDetail)
      | none =>
        if okWrite && !(hasRating db uid movieId) then
          let ratings' :=
            db.ratings ++ [⟨db.nextRatingId, uid, movieId, score, review⟩]
          if okAgg then
            ({ db with
                ratings := ratings'
                nextRatingId := db.nextRatingId + 1
                movies := updateMovieAgg db.movies ratings' movieId },
             .redirectDetail)
          else
            ({ db with
                ratings := ratings'
                nextRatingId := db.nextRatingId + 1 },
             .redirectDetail)
        else (db, .redirectDetail)

/-- A one-user, one-movie, no-ratings store used to instantiate the
universally quantified theorems at concrete inputs. -/
def dbW1 : DB :=
  { users := [⟨1, "alice", "hash1", "", "user"⟩]
    movies := [⟨3, "X", "Dir", "2020", "drama", "desc", some "img", none,
               "external", some 0⟩]
    ratings := []
    movieCategories := [⟨3, 2⟩]
    nextUserId := 2
    nextMovieId := 4
    nextRatingId := 1 }

/-- The session of the logged-in non-admin user of `dbW1`. -/
def sessW1 : Session := ⟨some 1, some "alice", some "user"⟩

/-- Outcomes of the `/register` route (POST). -/
inductive RegisterOutcome
  | missingFields
  | weakPassword
  | duplicateUsername
  | success
deriving Repr, DecidableEq

/-- The `/register` handler (POST): requires username and password
non-empty, then password length at least 6, then an unused username — in
exactly that order; on success it stores the hashed password with role
"user" and logs the new user in by populating the session.  `hashF` is the
opaque `bcrypt.hashpw` capability. -/
def register (hashF : String → String) (db : DB) (sess : Session)
    (username password email : String) : DB × Session × RegisterOutcome :=
  if username = "" ∨ password = "" then (db, sess, .missingFields)
  else if password.length < 6 then (db, sess, .weakPassword)
  else if (db.users.find? (fun u => u.username == username)).isSome then
    (db, sess, .duplicateUsername)
  else
    let uid := db.nextUserId
    ({ db with
        users := db.users ++ [⟨uid, username, hashF password, email, "user"⟩]
        nextUserId := uid + 1 },
     ⟨some uid, some username, some "user"⟩, .success)

/-- Outcomes of the `/login` route (POST). -/
inductive LoginOutcome
  | missingFields
  | invalidCredentials
  | redirectAdmin
  | redirectIndex
deriving Repr, DecidableEq

/-- The `/login` handler (POST): looks the user up by username and checks
the password against the stored hash with the opaque `bcrypt.checkpw`
capability; both an unknown username and a wrong password render the same
generic error page (`invalidCredentials`); on success the session is
populated and the redirect depends on the stored role. -/
def login (checkpw : String → String → Bool) (db : DB) (sess : Session)
    (username password : String) : Session × LoginOutcome :=
  if username = "" ∨ password = "" then (sess, .missingFields)
  else
    match db.users.find? (fun u => u.username == username) with
    | none => (sess, .invalidCredentials)
    | some u =>
      if checkpw password u.password then
        (⟨some u.id, some u.username, some u.role⟩,
         if u.role = "admin" then .redirectAdmin else .redirectIndex)
      else (sess, .invalidCredentials)

/-- Outcomes of the admin-gated routes. -/
inductive AdminOutcome
  | redirectLogin
  | redirectPanel
deriving Repr, DecidableEq

/-- The `/admin/delete_movie/<movie_id>` handler: admin-gated; deletes the
movie's rating rows, then its category-association rows, then the movie
row itself, and redirects to the admin panel. -/
def admin_delete_movie (db : DB) (sess : Session) (movieId : Nat) :
    DB × AdminOutcome :=
  if !check_login sess || !check_admin sess then (db, .redirectLogin)
  else
    ({ db with
        ratings := db.ratings.filter (fun r => r.movie_id != movieId)
        movieCategories :=
          db.movieCategories.filter (fun a => a.movie_id != movieId)
        movies := db.movies.filter (fun mv => mv.id != movieId) },
     .redirectPanel)

/-- Outcomes of the `/admin/add_movie` route (POST). -/
inductive AddMovieOutcome
  | redirectLogin
  | validationError
  | redirectPanel
deriving Repr, DecidableEq

/-- The deterministic placeholder image URL derived from a title (spaces
removed), used when neither an upload nor an explicit image URL is
given. -/
def placeholderImage (title : String) : String :=
  "https://picsum.photos/seed/" ++ (title.replace " " "") ++ "/300/450.jpg"

/-- The `/admin/add_movie` handler (POST): admin-gated; the five
descriptive fields are required; the stored image reference prefers an
uploaded file path (served under `/`), then the submitted URL, then the
placeholder derived from the title; the video reference prefers an
uploaded file (kind "upload"), then the submitted URL, and otherwise stays
absent with the default kind "external"; the movie row is inserted (stored
aggregate takes the schema default `0.0`) followed by one association row
per submitted category id. -/
def admin_add_movie (db : DB) (sess : Session)
    (title director year genre description image_url video_url : String)
    (uploadedImagePath uploadedVideoPath : Option String)
    (categories : List Nat) : DB × AddMovieOutcome :=
  if !check_login sess || !check_admin sess then (db, .redirectLogin)
  else if title = "" ∨ director = "" ∨ year = "" ∨ genre = "" ∨
      description = "" then
    (db, .validationError)
  else
    let final_image_url :=
      match uploadedImagePath with
      | some p => "/" ++ p
      | none => if image_url ≠ "" then image_url else placeholderImage title
    let fv :=
      match uploadedVideoPath with
      | some p => (some ("/" ++ p), "upload")
      | none =>
        if video_url ≠ "" then (some video_url, "external")
        else (none, "external")
    let movieId := db.nextMovieId
    ({ db with
        movies := db.movies ++
          [⟨movieId, title, director, year, genre, description,
            some final_image_url, fv.1, fv.2, some 0⟩]
        movieCategories := db.movieCategories ++
          categories.map (fun cid => ⟨movieId, cid⟩)
        nextMovieId := movieId + 1 },
     .redirectPanel)

/-- Outcomes of the rating-deletion operation. -/
inductive DeleteRatingOutcome
  | notFound
  | forbidden
  | success
deriving Repr, DecidableEq

/-- Modelled from the spec: the `delete_rating(rating_id,
requesting_user_id)` operation of §4.1 — its route is exercised by
`test_profile_feature.py` but absent from `app.py`.  Only the owning user
may delete their own rating (`Forbidden` otherwise); deletion is followed
by aggregate recomputation for the affected movie; a missing rating id is
`NotFound` per the §7 taxonomy. -/
def delete_rating (db : DB) (ratingId requestingUserId : Nat) :
    DB × DeleteRatingOutcome :=
  match db.ratings.find? (fun x => x.id == ratingId) with
  | none => (db, .notFound)
  | some r =>
    if r.user_id ≠ requestingUserId then (db, .forbidden)
    else
      let ratings' := db.ratings.filter (fun x => x.id != ratingId)
      ({ db with
          ratings := ratings'
          movies := updateMovieAgg db.movies ratings' r.movie_id },
       .success)

/-- Connection-lifecycle events of one `execute_db_query` call. -/
inductive DbEvent
  | opened
  | closed
deriving Repr, DecidableEq

/-- Where, if anywhere, the body of `execute_db_query` raises: while
opening the connection, executing the statement, committing, or fetching
the results. -/
inductive FailPoint
  | atConnect
  | atExecute
  | atCommit
  | atFetch
  | noFail
deriving Repr, DecidableEq

/-- Connection events of one `execute_db_query` call, together with
whether it returns a non-`None` result.  The body runs under
try/except/finally: `conn` starts as `None`, so a connect-time failure
raises before `conn` is assigned and the `finally` block closes nothing;
any later failure is caught by the `except` arm (rolling back when
`commit` was requested) and the `finally` block closes the connection that
was opened. -/
def execute_db_query (fail : FailPoint)
    (fetch_one fetch_all commit : Bool) : List DbEvent × Bool :=
  if fail = .atConnect then ([], false)
  else if fail = .atExecute then ([.opened, .closed], false)
  else if commit ∧ fail = .atCommit then ([.opened, .closed], false)
  else if (fetch_one ∨ fetch_all) ∧ fail = .atFetch then
    ([.opened, .closed], false)
  else ([.opened, .closed], true)

/-- A concrete stand-in for the opaque password-hash capability, used only
to instantiate theorems at concrete inputs. -/
def hashW (p : String) : String := "#" ++ p

/-- A logged-in admin session over `dbW1`-style stores. -/
def sessAdmin : Session := ⟨some 9, some "admin", some "admin"⟩

/-- A two-user store holding one rating (id 7, by user 1, score 4 on movie
3, the movie's only rating), used to instantiate theorems at concrete
inputs. -/
def dbW2 : DB :=
  { users := [⟨1, "alice", "hash1", "", "user"⟩,
              ⟨2, "bob", "hash2", "", "user"⟩]
    movies := [⟨3, "X", "Dir", "2020", "drama", "desc", some "img", none,
               "external", some 4⟩]
    ratings := [⟨7, 1, 3, 4, "ok"⟩]
    movieCategories := []
    nextUserId := 3
    nextMovieId := 4
    nextRatingId := 8 }

-- ===== Theorems =====

theorem updateMovieAgg_rating (movies : List Movie) (ratings : List Rating)
    (m : Nat) :
    ∀ mv ∈ updateMovieAgg movies ratings m, mv.id = m →
      mv.rating = sqlAvg (ratingsFor ratings m) := by
  intro mv hmv hid
  unfold updateMovieAgg at hmv
  rcases List.mem_map.1 hmv with ⟨a, _, rfl⟩
  by_cases h : a.id = m
  · simp [h]
  · simp [h] at hid

theorem updateMovieAgg_not_present (movies : List Movie)
    (ratings : List Rating) (m : Nat)
    (h : ∀ mv ∈ movies, mv.id ≠ m) :
    updateMovieAgg movies ratings m = movies := by
  unfold updateMovieAgg
  induction movies with
  | nil => rfl
  | cons a l ih =>
    have ha : a.id ≠ m := h a (List.mem_cons_self a l)
    simp only [List.map_cons]
    rw [if_neg (by simpa using ha)]
    rw [ih (fun mv hmv => h mv (List.mem_cons_of_mem a hmv))]

theorem sqlAvg_of_ne_nil (xs : List Int) (h : xs ≠ []) :
    sqlAvg xs = some ((xs.sum : ℚ) / (xs.length : ℚ)) := by
  unfold sqlAvg
  rw [if_neg (by simpa [List.isEmpty_iff] using h)]

theorem ratingsFor_ne_nil_of_mem (ratings : List Rating) (m : Nat)
    (r : Rating) (hr : r ∈ ratings) (hm : r.movie_id = m) :
    ratingsFor ratings m ≠ [] := by
  unfold ratingsFor
  apply List.ne_nil_of_mem (a := r.rating)
  exact List.mem_map_of_mem Rating.rating
    (List.mem_filter.2 ⟨hr, by simp [hm]⟩)

/-- C1: for every logged-in user, movie and score in `[1,5]`, submitting a
rating updates the existing `(user, movie)` row in place (row count
unchanged, score and review overwritten) when one exists and inserts
exactly one new row otherwise; in either case the movie's stored aggregate
immediately afterwards equals the arithmetic mean of all rating scores now
associated with the movie. -/
theorem rate_movie_submit_or_update (db : DB) (sess : Session) (uid m : Nat)
    (s : Int) (rev : String) (hsess : sess.user_id = some uid)
    (h1 : 1 ≤ s) (h5 : s ≤ 5) :
    (hasRating db uid m = true →
        (rate_movie db sess m s rev).1.ratings.length = db.ratings.length ∧
        ∀ r ∈ (rate_movie db sess m s rev).1.ratings,
          r.user_id = uid → r.movie_id = m → r.rating = s ∧ r.review = rev) ∧
    (hasRating db uid m = false →
        (rate_movie db sess m s rev).1.ratings =
          db.ratings ++ [⟨db.nextRatingId, uid, m, s, rev⟩]) ∧
    (∀ mv ∈ (rate_movie db sess m s rev).1.movies, mv.id = m →
        mv.rating =
          some (((ratingsFor (rate_movie db sess m s rev).1.ratings m).sum : ℚ) /
            ((ratingsFor (rate_movie db sess m s rev).1.ratings m).length : ℚ))) := by
  have hguard : ¬(s < 1 ∨ 5 < s) := by omega
  cases hfind : db.ratings.find? (ratingKey uid m) with
  | none =>
    have hhr : hasRating db uid m = false := by simp [hasRating, hfind]
    simp only [rate_movie, hsess, hfind, if_neg hguard]
    have hne : ratingsFor
        (db.ratings ++ [⟨db.nextRatingId, uid, m, s, rev⟩]) m ≠ [] :=
      ratingsFor_ne_nil_of_mem _ m ⟨db.nextRatingId, uid, m, s, rev⟩
        (List.mem_append_right _ (List.mem_singleton.2 rfl)) rfl
    refine ⟨?_, ?_, ?_⟩
    · intro h
      simp [hhr] at h
    · intro _
      trivial
    · intro mv hmv hid
      rw [updateMovieAgg_rating db.movies _ m mv hmv hid,
        sqlAvg_of_ne_nil _ hne]
  | some r₀ =>
    have hhr : hasRating db uid m = true := by simp [hasRating, hfind]
    have hkey : ratingKey uid m r₀ = true := List.find?_some hfind
    have hmem : r₀ ∈ db.ratings := List.mem_of_find?_eq_some hfind
    have hm₀ : r₀.movie_id = m := by
      simp [ratingKey] at hkey
      exact hkey.2
    simp only [rate_movie, hsess, hfind, if_neg hguard]
    have hne : ratingsFor
        (db.ratings.map (fun r =>
          if ratingKey uid m r then { r with rating := s, review := rev }
          else r)) m ≠ [] := by
      apply ratingsFor_ne_nil_of_mem _ m
        ({ r₀ with rating := s, review := rev })
      · have h2 := List.mem_map_of_mem (fun r =>
          if ratingKey uid m r then { r with rating := s, review := rev }
          else r) hmem
        simpa [hkey] using h2
      · simpa using hm₀
    refine ⟨?_, ?_, ?_⟩
    · intro _
      refine ⟨by simp, ?_⟩
      intro r hr hu hm
      rcases List.mem_map.1 hr with ⟨a, _, rfl⟩
      by_cases hk : ratingKey uid m a = true
      · simp [hk]
      · simp [hk] at hu hm
        simp [ratingKey, hu, hm] at hk
    · intro h
      simp [hhr] at h
    · intro mv hmv hid
      rw [updateMovieAgg_rating db.movies _ m mv hmv hid,
        sqlAvg_of_ne_nil _ hne]

/-- Witness for `rate_movie_submit_or_update`: in `dbW1` user 1 has no
rating for movie 3, so submitting score 4 appends exactly one new row. -/
theorem rate_movie_submit_or_update_witness :
    (rate_movie dbW1 sessW1 3 4 "nice").1.ratings =
      dbW1.ratings ++ [⟨1, 1, 3, 4, "nice"⟩] :=
  (rate_movie_submit_or_update dbW1 sessW1 1 3 4 "nice" rfl (by decide)
    (by decide)).2.1 (by decide)

/-- C9: `rate_movie` never checks that the movie exists: a logged-in user
submitting a valid score for a movie id with no Movie row is not rejected —
the request succeeds with the usual redirect, a rating row referencing the
nonexistent movie is inserted into the ledger, and the aggregate UPDATE
touches no movie row. -/
theorem rate_movie_no_existence_check (db : DB) (sess : Session)
    (uid m : Nat) (s : Int) (rev : String)
    (hsess : sess.user_id = some uid) (h1 : 1 ≤ s) (h5 : s ≤ 5)
    (hnomovie : ∀ mv ∈ db.movies, mv.id ≠ m)
    (hnorating : hasRating db uid m = false) :
    (rate_movie db sess m s rev).2 = RateOutcome.redirectDetail ∧
    (rate_movie db sess m s rev).1.ratings =
      db.ratings ++ [⟨db.nextRatingId, uid, m, s, rev⟩] ∧
    (rate_movie db sess m s rev).1.movies = db.movies := by
  have hguard : ¬(s < 1 ∨ 5 < s) := by omega
  cases hfind : db.ratings.find? (ratingKey uid m) with
  | some r₀ => simp [hasRating, hfind] at hnorating
  | none =>
    refine ⟨?_, ?_, ?_⟩ <;>
      simp only [rate_movie, hsess, hfind, if_neg hguard]
    exact updateMovieAgg_not_present _ _ _ hnomovie

/-- Witness for `rate_movie_no_existence_check`: `dbW1` has no movie with
id 9, yet rating it succeeds and leaves the movies table untouched. -/
theorem rate_movie_no_existence_check_witness :
    (rate_movie dbW1 sessW1 9 5 "").1.movies = dbW1.movies :=
  (rate_movie_no_existence_check dbW1 sessW1 1 9 5 "" rfl (by decide)
    (by decide) (by decide) (by decide)).2.2

/-- C3 counterexample: starting from `dbW1` (no ratings, movie 3 stored
aggregate 0), the rating INSERT succeeds but the aggregate UPDATE fails.
The new rating row is persisted while movie 3 keeps stored aggregate 0
instead of the fresh mean 5, and the handler still redirects exactly as on
success: a partial update is applied and no `PersistenceFailure` reaches
the caller. -/
theorem rate_movie_stale_aggregate_counterexample :
    (rate_movieF dbW1 sessW1 3 5 "" true true false).1.ratings =
      [⟨1, 1, 3, 5, ""⟩] ∧
    (rate_movieF dbW1 sessW1 3 5 "" true true false).1.movies =
      dbW1.movies ∧
    dbW1.movies.map Movie.rating = [some 0] ∧
    sqlAvg (ratingsFor [⟨1, 1, 3, 5, ""⟩] 3) = some 5 ∧
    (rate_movieF dbW1 sessW1 3 5 "" true true false).2 =
      RateOutcome.redirectDetail := by
  refine ⟨rfl, rfl, rfl, ?_, rfl⟩
  have h : ratingsFor [⟨1, 1, 3, 5, ""⟩] 3 = [5] := by decide
  rw [h]
  norm_num [sqlAvg, List.sum_cons, List.sum_nil]

/-- C3 (amended): if the rating INSERT/UPDATE itself fails, the prior
state is left unchanged; but if it succeeds and the aggregate
recomputation fails, the rating row stays written while the movie's stored
aggregate remains stale; in every case the handler redirects back to the
movie page and signals no `PersistenceFailure` to the caller. -/
theorem rate_movieF_failure_effects (db : DB) (sess : Session) (uid m : Nat)
    (s : Int) (rev : String) (hsess : sess.user_id = some uid)
    (h1 : 1 ≤ s) (h5 : s ≤ 5) :
    ((rate_movieF db sess m s rev true false true).1 = db ∧
     (rate_movieF db sess m s rev true false true).2 =
       RateOutcome.redirectDetail) ∧
    ((rate_movieF db sess m s rev true true false).1.movies = db.movies ∧
     (rate_movieF db sess m s rev true true false).2 =
       RateOutcome.redirectDetail) ∧
    (hasRating db uid m = false →
      (rate_movieF db sess m s rev true true false).1.ratings =
        db.ratings ++ [⟨db.nextRatingId, uid, m, s, rev⟩]) := by
  have hguard : ¬(s < 1 ∨ 5 < s) := by omega
  cases hfind : db.ratings.find? (ratingKey uid m) with
  | some r₀ =>
    have hhr : hasRating db uid m = true := by simp [hasRating, hfind]
    refine ⟨⟨?_, ?_⟩, ⟨?_, ?_⟩, ?_⟩ <;>
      simp [rate_movieF, hsess, hfind, hguard, hhr]
  | none =>
    have hhr : hasRating db uid m = false := by simp [hasRating, hfind]
    refine ⟨⟨?_, ?_⟩, ⟨?_, ?_⟩, ?_⟩ <;>
      simp [rate_movieF, hsess, hfind, hguard, hhr]

/-- Witness for `rate_movieF_failure_effects`: a failed rating write on
`dbW1` leaves the store exactly as it was. -/
theorem rate_movieF_failure_effects_witness :
    (rate_movieF dbW1 sessW1 3 5 "" true false true).1 = dbW1 :=
  (rate_movieF_failure_effects dbW1 sessW1 1 3 5 "" rfl (by decide)
    (by decide)).1.1

/-- C2 counterexample: the password-length check precedes the duplicate-
username check, so registering the already-taken username "alice" of
`dbW1` with the 3-character password "abc" fails with `weakPassword`, not
`duplicateUsername`. -/
theorem register_short_password_counterexample :
    (register hashW dbW1 ⟨none, none, none⟩ "alice" "abc" "").2.2 =
      RegisterOutcome.weakPassword ∧
    RegisterOutcome.weakPassword ≠ RegisterOutcome.duplicateUsername ∧
    (dbW1.users.find? (fun u => u.username == "alice")).isSome = true := by
  decide

/-- C2 (amended): provided the submitted password passes the validations
that run first (non-empty, length at least 6), registering an existing
username fails with `duplicateUsername`; with a shorter password the
duplicate is reported as `weakPassword` instead. -/
theorem register_duplicate_username (hashF : String → String) (db : DB)
    (sess : Session) (username password email : String)
    (hu : username ≠ "") (hp : 6 ≤ password.length)
    (hdup : (db.users.find? (fun u => u.username == username)).isSome =
      true) :
    (register hashF db sess username password email).2.2 =
      RegisterOutcome.duplicateUsername := by
  have hpne : password ≠ "" := by
    intro h
    rw [h] at hp
    exact absurd hp (by decide)
  unfold register
  rw [if_neg (by simp [hu, hpne]), if_neg (by omega), if_pos hdup]

/-- Witness for `register_duplicate_username`: a duplicate "alice" with a
long-enough password is refused as a duplicate. -/
theorem register_duplicate_username_witness :
    (register hashW dbW1 ⟨none, none, none⟩ "alice" "abcdef" "").2.2 =
      RegisterOutcome.duplicateUsername :=
  register_duplicate_username hashW dbW1 ⟨none, none, none⟩ "alice" "abcdef"
    "" (by decide) (by decide) (by decide)

/-- C10: a successful registration immediately establishes a logged-in
session for the new user — session `user_id`, `username` and role "user"
are set with no separate authenticate step — and that session is not an
admin session. -/
theorem register_auto_login (hashF : String → String) (db : DB)
    (sess : Session) (username password email : String)
    (hu : username ≠ "") (hp : 6 ≤ password.length)
    (hdup : (db.users.find? (fun u => u.username == username)).isSome =
      false) :
    (register hashF db sess username password email).2.2 =
      RegisterOutcome.success ∧
    (register hashF db sess username password email).2.1 =
      ⟨some db.nextUserId, some username, some "user"⟩ ∧
    check_admin ⟨some db.nextUserId, some username, some "user"⟩ = false := by
  have hpne : password ≠ "" := by
    intro h
    rw [h] at hp
    exact absurd hp (by decide)
  unfold register
  rw [if_neg (by simp [hu, hpne]), if_neg (by omega),
    if_neg (by simp [hdup])]
  exact ⟨rfl, rfl, by simp [check_admin, check_login]⟩

/-- Witness for `register_auto_login`: registering the fresh username
"bob" on `dbW1` leaves a logged-in non-admin session for the new user. -/
theorem register_auto_login_witness :
    (register hashW dbW1 ⟨none, none, none⟩ "bob" "abcdef" "").2.1 =
      ⟨some 2, some "bob", some "user"⟩ :=
  (register_auto_login hashW dbW1 ⟨none, none, none⟩ "bob" "abcdef" ""
    (by decide) (by decide) (by decide)).2.1

/-- C7: an authentication attempt with an unknown username and one with a
known username but wrong password produce the identical generic
`invalidCredentials` outcome — the result never reveals which part was
wrong. -/
theorem login_failure_indistinguishable (checkpw : String → String → Bool)
    (db₁ db₂ : DB) (sess₁ sess₂ : Session) (u₁ p₁ u₂ p₂ : String)
    (hu₁ : u₁ ≠ "") (hp₁ : p₁ ≠ "")
    (hunknown : db₁.users.find? (fun u => u.username == u₁) = none)
    (hu₂ : u₂ ≠ "") (hp₂ : p₂ ≠ "") (usr : User)
    (hknown : db₂.users.find? (fun u => u.username == u₂) = some usr)
    (hwrong : checkpw p₂ usr.password = false) :
    (login checkpw db₁ sess₁ u₁ p₁).2 = LoginOutcome.invalidCredentials ∧
    (login checkpw db₂ sess₂ u₂ p₂).2 = LoginOutcome.invalidCredentials ∧
    (login checkpw db₁ sess₁ u₁ p₁).2 = (login checkpw db₂ sess₂ u₂ p₂).2 := by
  have h1 : (login checkpw db₁ sess₁ u₁ p₁).2 =
      LoginOutcome.invalidCredentials := by
    unfold login
    rw [if_neg (by simp [hu₁, hp₁]), hunknown]
  have h2 : (login checkpw db₂ sess₂ u₂ p₂).2 =
      LoginOutcome.invalidCredentials := by
    unfold login
    rw [if_neg (by simp [hu₂, hp₂]), hknown]
    simp [hwrong]
  exact ⟨h1, h2, h1.trans h2.symm⟩

/-- Witness for `login_failure_indistinguishable`: on `dbW1`, logging in as
the unknown "zoe" and as the known "alice" with a wrong password give the
same outcome. -/
theorem login_failure_indistinguishable_witness :
    (login (fun p h => p == h) dbW1 ⟨none, none, none⟩ "zoe" "pw").2 =
      (login (fun p h => p == h) dbW1 ⟨none, none, none⟩ "alice" "bad").2 :=
  (login_failure_indistinguishable (fun p h => p == h) dbW1 dbW1
    ⟨none, none, none⟩ ⟨none, none, none⟩ "zoe" "pw" "alice" "bad"
    (by decide) (by decide) (by decide) (by decide) (by decide)
    ⟨1, "alice", "hash1", "", "user"⟩ (by decide) (by decide)).2.2

/-- C5: deleting a movie removes its rating rows and its category
association rows along with the movie row itself: afterwards no rating row
and no association row referencing the movie remains in either table. -/
theorem admin_delete_movie_no_orphans (db : DB) (sess : Session)
    (movieId : Nat)
    (hadmin : check_login sess = true ∧ check_admin sess = true) :
    (admin_delete_movie db sess movieId).2 = AdminOutcome.redirectPanel ∧
    (∀ r ∈ (admin_delete_movie db sess movieId).1.ratings,
      r.movie_id ≠ movieId) ∧
    (∀ a ∈ (admin_delete_movie db sess movieId).1.movieCategories,
      a.movie_id ≠ movieId) ∧
    (∀ mv ∈ (admin_delete_movie db sess movieId).1.movies,
      mv.id ≠ movieId) := by
  obtain ⟨hl, ha⟩ := hadmin
  refine ⟨?_, ?_, ?_, ?_⟩ <;>
    simp only [admin_delete_movie, hl, ha, Bool.not_true, Bool.or_self,
      Bool.false_eq_true, if_false]
  · intro r hr
    have := (List.mem_filter.1 hr).2
    simpa using this
  · intro a haa
    have := (List.mem_filter.1 haa).2
    simpa using this
  · intro mv hmv
    have := (List.mem_filter.1 hmv).2
    simpa using this

/-- Witness for `admin_delete_movie_no_orphans`: an admin deleting movie 3
from `dbW2` is redirected to the panel. -/
theorem admin_delete_movie_no_orphans_witness :
    (admin_delete_movie dbW2 sessAdmin 3).2 = AdminOutcome.redirectPanel :=
  (admin_delete_movie_no_orphans dbW2 sessAdmin 3 ⟨by decide, by decide⟩).1

/-- C8: `execute_db_query` releases the connection it opened on every exit
path: for every query shape and every failure point (including a raised
store error) the call's connection trace balances opens with closes —
a connect-time failure is the only case where no connection was opened,
and in every other case the opened connection is closed before return. -/
theorem execute_db_query_closes_connection (fail : FailPoint)
    (fetch_one fetch_all commit : Bool) :
    ((execute_db_query fail fetch_one fetch_all commit).1.count
        DbEvent.opened =
      (execute_db_query fail fetch_one fetch_all commit).1.count
        DbEvent.closed) ∧
    (fail = FailPoint.atConnect ∨
      (execute_db_query fail fetch_one fetch_all commit).1 =
        [DbEvent.opened, DbEvent.closed]) := by
  cases fail <;> cases fetch_one <;> cases fetch_all <;> cases commit <;>
    simp [execute_db_query]

/-- C6: with all required descriptive fields present, the stored image
reference is chosen in priority order uploaded file path, then explicit
URL, then the deterministic placeholder derived from the title; the video
reference has no placeholder fallback — when neither a video upload nor a
video URL is supplied the stored video reference is absent (NULL) and the
video kind stays "external". -/
theorem admin_add_movie_media_references (db : DB) (sess : Session)
    (title director year genre description image_url video_url : String)
    (uploadedImagePath uploadedVideoPath : Option String)
    (categories : List Nat)
    (hadmin : check_login sess = true ∧ check_admin sess = true)
    (ht : title ≠ "") (hd : director ≠ "") (hy : year ≠ "")
    (hg : genre ≠ "") (hde : description ≠ "") :
    (admin_add_movie db sess title director year genre description
        image_url video_url uploadedImagePath uploadedVideoPath
        categories).2 = AddMovieOutcome.redirectPanel ∧
    (admin_add_movie db sess title director year genre description
        image_url video_url uploadedImagePath uploadedVideoPath
        categories).1.movies.getLast?.map Movie.image_url =
      some (some (uploadedImagePath.elim
        (if image_url ≠ "" then image_url else placeholderImage title)
        (fun p => "/" ++ p))) ∧
    (uploadedImagePath = none ∧ image_url = "" →
      (admin_add_movie db sess title director year genre description
          image_url video_url uploadedImagePath uploadedVideoPath
          categories).1.movies.getLast?.map Movie.image_url =
        some (some (placeholderImage title))) ∧
    (uploadedVideoPath = none ∧ video_url = "" →
      (admin_add_movie db sess title director year genre description
          image_url video_url uploadedImagePath uploadedVideoPath
          categories).1.movies.getLast?.map Movie.video_url = some none ∧
      (admin_add_movie db sess title director year genre description
          image_url video_url uploadedImagePath uploadedVideoPath
          categories).1.movies.getLast?.map Movie.video_type =
        some "external") := by
  obtain ⟨hl, ha⟩ := hadmin
  have hval : ¬(title = "" ∨ director = "" ∨ year = "" ∨ genre = "" ∨
      description = "") := by
    simp [ht, hd, hy, hg, hde]
  refine ⟨?_, ?_, ?_, ?_⟩ <;>
    simp only [admin_add_movie, hl, ha, Bool.not_true, Bool.or_self,
      Bool.false_eq_true, if_false, if_neg hval]
  · cases uploadedImagePath <;>
      simp [List.getLast?_concat, Option.elim]
  · rintro ⟨h1, h2⟩
    subst h1
    simp [List.getLast?_concat, h2]
  · rintro ⟨h1, h2⟩
    subst h1
    constructor <;> simp [List.getLast?_concat, h2]

/-- Witness for `admin_add_movie_media_references`: an admin creating
"The X" with no upload and no image URL stores the placeholder derived
from the title. -/
theorem admin_add_movie_media_references_witness :
    (admin_add_movie dbW1 sessAdmin "The X" "D" "2020" "g" "d" "" "" none
        none []).1.movies.getLast?.map Movie.image_url =
      some (some (placeholderImage "The X")) :=
  (admin_add_movie_media_references dbW1 sessAdmin "The X" "D" "2020" "g"
    "d" "" "" none none [] ⟨by decide, by decide⟩ (by decide) (by decide)
    (by decide) (by decide) (by decide)).2.2.1 ⟨rfl, rfl⟩

/-- C4 (spec-modelled): only the owning user may delete a rating — any
other requester is refused with `forbidden` and the store is unchanged —
while an owner's deletion succeeds and immediately recomputes the affected
movie's aggregate, so deleting the only rating of a movie resets its
stored aggregate to the no-ratings state (`none`) rather than leaving a
stale average. -/
theorem delete_rating_owner_and_aggregate (db : DB)
    (ratingId requesterId : Nat) (r : Rating)
    (hfind : db.ratings.find? (fun x => x.id == ratingId) = some r) :
    (r.user_id ≠ requesterId →
      delete_rating db ratingId requesterId =
        (db, DeleteRatingOutcome.forbidden)) ∧
    (r.user_id = requesterId →
      (delete_rating db ratingId requesterId).2 =
        DeleteRatingOutcome.success ∧
      (∀ mv ∈ (delete_rating db ratingId requesterId).1.movies,
        mv.id = r.movie_id →
        mv.rating = sqlAvg (ratingsFor
          (delete_rating db ratingId requesterId).1.ratings r.movie_id)) ∧
      (db.ratings.filter (fun x => x.movie_id == r.movie_id) = [r] →
        ∀ mv ∈ (delete_rating db ratingId requesterId).1.movies,
          mv.id = r.movie_id → mv.rating = none)) := by
  have hrid : r.id = ratingId := by
    have := List.find?_some hfind
    simpa using this
  constructor
  · intro hne
    simp only [delete_rating, hfind]
    rw [if_pos hne]
  · intro heq
    have hnot : ¬(r.user_id ≠ requesterId) := by simp [heq]
    refine ⟨?_, ?_, ?_⟩ <;>
      simp only [delete_rating, hfind, if_neg hnot]
    · intro mv hmv hid
      exact updateMovieAgg_rating _ _ _ mv hmv hid
    · intro honly mv hmv hid
      rw [updateMovieAgg_rating db.movies
        (db.ratings.filter (fun x => x.id != ratingId)) r.movie_id mv hmv
        hid]
      have h1 : db.ratings.filter
            (fun a => (a.movie_id == r.movie_id) && (a.id != ratingId)) =
          db.ratings.filter
            (fun a => (a.id != ratingId) && (a.movie_id == r.movie_id)) :=
        List.filter_congr (fun a _ => Bool.and_comm _ _)
      have hempty : ratingsFor
          (db.ratings.filter (fun x => x.id != ratingId)) r.movie_id =
          [] := by
        unfold ratingsFor
        rw [List.filter_filter, h1, ← List.filter_filter, honly]
        simp [hrid]
      rw [hempty]
      rfl

/-- Witness for `delete_rating_owner_and_aggregate`: user 2 of `dbW2` may
not delete rating 7, which belongs to user 1. -/
theorem delete_rating_owner_and_aggregate_witness :
    delete_rating dbW2 7 2 = (dbW2, DeleteRatingOutcome.forbidden) :=
  (delete_rating_owner_and_aggregate dbW2 7 2 ⟨7, 1, 3, 4, "ok"⟩
    (by decide)).1 (by decide)
